import Mathlib

/-!
A shallow embedding of the City-Road3d-Generator core (Python package
`city_generator`: `config.py`, `zones.py`, `roads.py`, `generator.py`)
together with theorems settling the specification claims C1 - C10.

Modelling conventions:
* Grid coordinates are `Nat` (every coordinate produced by the source is a
  non-negative Python int); where the source subtracts possibly larger
  values, the computation is carried out in `Int` or justified to agree
  with `Nat` truncated subtraction.
* Python `range(a, b, s)` is `pyRange a b s`.
* Floating point only ever appears in the source inside comparisons of the
  form `sqrt d2 < c` or `length > 0` with `d2`, `length^2` exact integers;
  these are embedded as the exactly equivalent integer comparisons
  `d2 < c^2` and `0 < lengthSq`.
* Randomness (`random.randint` / `np.random.randint`, the exponential
  draws, and the density Bernoulli draws) is modelled by oracle
  parameters: `randint lo hi` is modelled by `lo + seed % (hi + 1 - lo)`
  (defined, and covering exactly the interval `[lo, hi]`, when
  `lo ≤ hi`; `none` when `lo > hi`, where the source raises).
* Python dicts keyed by grid points are modelled as functions
  `Nat × Nat → List Road` defaulting to `[]`.
-/

namespace CityGen

/-- Zone types, from `config.py` (`class ZoneType(Enum)`). -/
inductive ZoneType where
  | RESIDENTIAL
  | COMMERCIAL
  | BUSINESS
  | LEISURE
  | PARKS
  | INDUSTRIAL
deriving DecidableEq

/-- The `.value` string of a zone type. -/
def zoneTypeValue : ZoneType → String
  | .RESIDENTIAL => "residential"
  | .COMMERCIAL => "commercial"
  | .BUSINESS => "business"
  | .LEISURE => "leisure"
  | .PARKS => "parks"
  | .INDUSTRIAL => "industrial"

/-- `CityConfig` from `config.py`.  The per-zone-type dicts are modelled as
total functions (the defaults populate every zone type). -/
structure CityConfig where
  width : Nat
  height : Nat
  main_road_width : ℚ
  secondary_road_width : ℚ
  local_road_width : ℚ
  main_grid_size : Nat
  secondary_grid_size : Nat
  zone_densities : ZoneType → ℚ
  zone_distribution : ZoneType → ℚ
  max_building_height : ZoneType → Nat
  min_building_height : ZoneType → Nat
  noise_scale : ℚ
  noise_octaves : Nat

/-- `get_zone_color` from `config.py`. -/
def CityConfig.get_zone_color (_cfg : CityConfig) : ZoneType → ℚ × ℚ × ℚ
  | .RESIDENTIAL => (4/5, 4/5, 3/5)
  | .COMMERCIAL => (3/5, 3/5, 9/10)
  | .BUSINESS => (1/2, 1/2, 4/5)
  | .LEISURE => (9/10, 7/10, 3/5)
  | .PARKS => (2/5, 4/5, 2/5)
  | .INDUSTRIAL => (7/10, 7/10, 7/10)

/-- `class Road` from `roads.py`: a road segment with integer grid endpoints,
a width and a category tag.  (`end` is a Lean keyword, hence `end_`.) -/
structure Road where
  start : Nat × Nat
  end_ : Nat × Nat
  width : ℚ
  road_type : String
deriving DecidableEq

/-- The exact square of `Road.get_length` (which the source computes as a
float `sqrt`); every comparison the source makes against `get_length` is
embedded through this exact integer. -/
def Road.lengthSq (r : Road) : Int :=
  ((r.end_.1 : Int) - r.start.1) ^ 2 + ((r.end_.2 : Int) - r.start.2) ^ 2

/-- `class Zone` from `zones.py` (the mutable `buildings` list lives on the
generator side of the embedding). -/
structure Zone where
  zone_type : ZoneType
  x : Nat
  y : Nat
  width : Nat
  height : Nat
  density : ℚ
deriving DecidableEq

/-- Python `range(a, b, s)` over naturals (used with `s > 0` throughout
the source). -/
def pyRange (a b s : Nat) : List Nat :=
  (List.range ((b - a + s - 1) / s)).map (fun i => a + s * i)

/-! ### Road synthesis (`roads.py`, class `RoadNetwork`) -/

/-- `_generate_main_roads`: vertical then horizontal arterials on the main
grid. -/
def generate_main_roads (cfg : CityConfig) : List Road :=
  ((pyRange 0 cfg.width cfg.main_grid_size).filterMap fun x =>
    if x < cfg.width then
      some (Road.mk (x, 0) (x, cfg.height - 1) cfg.main_road_width "main")
    else none)
  ++
  ((pyRange 0 cfg.height cfg.main_grid_size).filterMap fun y =>
    if y < cfg.height then
      some (Road.mk (0, y) (cfg.width - 1, y) cfg.main_road_width "main")
    else none)

/-- `_generate_secondary_roads`: secondary grid, skipping coordinates that
are multiples of the main grid size. -/
def generate_secondary_roads (cfg : CityConfig) : List Road :=
  ((pyRange cfg.secondary_grid_size cfg.width cfg.secondary_grid_size).filterMap fun x =>
    if x % cfg.main_grid_size ≠ 0 then
      some (Road.mk (x, 0) (x, cfg.height - 1) cfg.secondary_road_width "secondary")
    else none)
  ++
  ((pyRange cfg.secondary_grid_size cfg.height cfg.secondary_grid_size).filterMap fun y =>
    if y % cfg.main_grid_size ≠ 0 then
      some (Road.mk (0, y) (cfg.width - 1, y) cfg.secondary_road_width "secondary")
    else none)

/-- `_generate_residential_roads`: a 50-spaced local grid of short
horizontal and vertical segments inside the zone. -/
def generate_residential_roads (cfg : CityConfig) (zone : Zone) : List Road :=
  (pyRange zone.x (zone.x + zone.width) 50).flatMap fun x =>
    (pyRange zone.y (zone.y + zone.height) 50).flatMap fun y =>
      (if x + 50 ≤ zone.x + zone.width then
        [Road.mk (x, y) (x + 50, y) cfg.local_road_width "local"]
      else [])
      ++
      (if y + 50 ≤ zone.y + zone.height then
        [Road.mk (x, y) (x, y + 50) cfg.local_road_width "local"]
      else [])

/-- `_generate_commercial_roads`: horizontal access strips every 40 units
in x and every 80 units in y. -/
def generate_commercial_roads (cfg : CityConfig) (zone : Zone) : List Road :=
  (pyRange zone.x (zone.x + zone.width) 40).flatMap fun x =>
    if x + 40 ≤ zone.x + zone.width then
      (pyRange zone.y (zone.y + zone.height) 80).filterMap fun y =>
        if y + 40 ≤ zone.y + zone.height then
          some (Road.mk (x, y) (x + 40, y) cfg.local_road_width "local")
        else none
    else []

/-- `_generate_business_roads`: full-height vertical and full-width
horizontal avenues every 60 units, at secondary road width. -/
def generate_business_roads (cfg : CityConfig) (zone : Zone) : List Road :=
  ((pyRange zone.x (zone.x + zone.width) 60).filterMap fun x =>
    if x < zone.x + zone.width then
      some (Road.mk (x, zone.y) (x, zone.y + zone.height) cfg.secondary_road_width "local")
    else none)
  ++
  ((pyRange zone.y (zone.y + zone.height) 60).filterMap fun y =>
    if y < zone.y + zone.height then
      some (Road.mk (zone.x, y) (zone.x + zone.width, y) cfg.secondary_road_width "local")
    else none)

/-- `_generate_industrial_roads`: sparse full-height verticals every 80
units at 1.5 x local width. -/
def generate_industrial_roads (cfg : CityConfig) (zone : Zone) : List Road :=
  (pyRange zone.x (zone.x + zone.width) 80).filterMap fun x =>
    if x < zone.x + zone.width then
      some (Road.mk (x, zone.y) (x, zone.y + zone.height) (cfg.local_road_width * (3/2)) "local")
    else none

/-- `_generate_park_roads`: a 4-segment perimeter loop, emitted only when
the zone is wider or taller than 100. -/
def generate_park_roads (cfg : CityConfig) (zone : Zone) : List Road :=
  if 100 < zone.width ∨ 100 < zone.height then
    [Road.mk (zone.x, zone.y) (zone.x + zone.width, zone.y)
        (cfg.local_road_width * (4/5)) "local",
     Road.mk (zone.x + zone.width, zone.y) (zone.x + zone.width, zone.y + zone.height)
        (cfg.local_road_width * (4/5)) "local",
     Road.mk (zone.x + zone.width, zone.y + zone.height) (zone.x, zone.y + zone.height)
        (cfg.local_road_width * (4/5)) "local",
     Road.mk (zone.x, zone.y + zone.height) (zone.x, zone.y)
        (cfg.local_road_width * (4/5)) "local"]
  else []

/-- `_generate_leisure_roads`: horizontal segments every 45 units in x and
90 units in y. -/
def generate_leisure_roads (cfg : CityConfig) (zone : Zone) : List Road :=
  (pyRange zone.x (zone.x + zone.width) 45).flatMap fun x =>
    (pyRange zone.y (zone.y + zone.height) 90).filterMap fun y =>
      if x + 45 ≤ zone.x + zone.width ∧ y + 45 ≤ zone.y + zone.height then
        some (Road.mk (x, y) (x + 45, y) cfg.local_road_width "local")
      else none

/-- `_generate_zone_roads`: dispatch on the zone type. -/
def generate_zone_roads (cfg : CityConfig) (zone : Zone) : List Road :=
  match zone.zone_type with
  | .RESIDENTIAL => generate_residential_roads cfg zone
  | .COMMERCIAL => generate_commercial_roads cfg zone
  | .BUSINESS => generate_business_roads cfg zone
  | .INDUSTRIAL => generate_industrial_roads cfg zone
  | .PARKS => generate_park_roads cfg zone
  | .LEISURE => generate_leisure_roads cfg zone

/-- The center point used by `_zone_distance` / `_add_zone_connector`
(`//` is Nat division, as in Python on non-negative ints). -/
def zoneCenter (z : Zone) : Nat × Nat :=
  (z.x + z.width / 2, z.y + z.height / 2)

/-- The exact square of `_zone_distance` (the source compares the float
`sqrt` of this integer against `150`; `sqrt d2 < 150` holds iff
`d2 < 22500` for integer `d2`, and `sqrt 22500 = 150` is exact in IEEE
arithmetic, so the embedding is exact). -/
def zoneDistSq (z1 z2 : Zone) : Int :=
  (((zoneCenter z1).1 : Int) - (zoneCenter z2).1) ^ 2
    + (((zoneCenter z1).2 : Int) - (zoneCenter z2).2) ^ 2

/-- `_add_zone_connector`: one straight local road between the two zone
centers. -/
def zone_connector (cfg : CityConfig) (z1 z2 : Zone) : Road :=
  Road.mk (zoneCenter z1) (zoneCenter z2) cfg.local_road_width "local"

/-- `_connect_zones`: for every unordered pair (in list order), add a
connector iff the center distance is strictly below 150. -/
def connect_zones (cfg : CityConfig) : List Zone → List Road
  | [] => []
  | z1 :: rest =>
      (rest.filterMap fun z2 =>
        if zoneDistSq z1 z2 < 22500 then some (zone_connector cfg z1 z2) else none)
      ++ connect_zones cfg rest

/-- The map from grid points to the list of roads registered there
(`RoadNetwork.intersections`, with `Intersection.connected_roads`
flattened out; a missing dict entry is the empty list). -/
def IMap : Type := Nat × Nat → List Road

/-- Appending a road to one point of the intersection map. -/
def imapAdd (m : IMap) (p : Nat × Nat) (r : Road) : IMap :=
  fun q => if q = p then m q ++ [r] else m q

/-- `_add_intersections_for_road`: register the road at its start point and
then at its end point (twice at the same point when they coincide, exactly
as the source's loop over `[road.start, road.end]` does). -/
def add_intersections_for_road (m : IMap) (r : Road) : IMap :=
  imapAdd (imapAdd m r.start r) r.end_ r

/-- The [roads, intersections] state produced by
`RoadNetwork.generate_road_network`.  Note that in the source only
`_generate_main_roads` and `_generate_secondary_roads` call
`_add_intersections_for_road`; the per-zone local roads and the zone
connectors are appended to `roads` without touching `intersections`. -/
structure RoadNetworkState where
  roads : List Road
  intersections : IMap

/-- `generate_road_network` (zone input is the zone manager's zone list):
main roads, then secondary roads, then per-zone local roads, then zone
connectors; the intersection map collects exactly the main and secondary
roads. -/
def generate_road_network (cfg : CityConfig) (zones : List Zone) : RoadNetworkState :=
  let mainSec := generate_main_roads cfg ++ generate_secondary_roads cfg
  { roads := mainSec ++ zones.flatMap (generate_zone_roads cfg) ++ connect_zones cfg zones
    intersections := mainSec.foldl add_intersections_for_road (fun _ => []) }

/-- The road occupancy grid (`road_grid[y][x]`), taken as a parameter of
the query/placement layer (it is produced by `_update_road_grid`, whose
rasterization detail no claim depends on). -/
def Grid : Type := Nat → Nat → Bool

/-- `is_road` from `roads.py`: the grid value inside `[0, width) x
[0, height)`, `False` outside. -/
def is_road (cfg : CityConfig) (grid : Grid) (x y : Int) : Bool :=
  if 0 ≤ x ∧ x < (cfg.width : Int) ∧ 0 ≤ y ∧ y < (cfg.height : Int) then
    grid y.toNat x.toNat
  else false

/-! ### Zone extraction (`zones.py`, class `ZoneManager`)

The per-cell noise-and-preference assignment loop produces the zone-id
grid `zone_grid[y][x]`; the extraction layer below (`_find_connected_cells`
and `_create_zone_objects`, the code cited by claim C3) is embedded as a
function of that grid. -/

/-- The zone-id grid `zone_grid[y][x]`. -/
def ZGrid : Type := Nat → Nat → Nat

/-- One run of the explicit-stack flood-fill loop of
`_find_connected_cells`, with fuel (the source terminates because the
visited set grows; `floodFuel` below is always sufficient).  The stack
holds possibly out-of-bounds neighbour coordinates, hence `Int`; pop is
from the head, and the four neighbours are pushed so that the source's
pop order (`(-1,0)`, `(1,0)`, `(0,-1)`, `(0,1)` last-pushed-first-popped)
is preserved. -/
def floodLoop (cfg : CityConfig) (grid : ZGrid) (zone_id : Nat) :
    Nat → List (Int × Int) → List (Int × Int) → List (Int × Int) → List (Int × Int)
  | 0, _, _, cells => cells
  | _ + 1, [], _, cells => cells
  | fuel + 1, (x, y) :: stack, visited, cells =>
    if (x, y) ∈ visited then
      floodLoop cfg grid zone_id fuel stack visited cells
    else if x < 0 ∨ (cfg.width : Int) ≤ x ∨ y < 0 ∨ (cfg.height : Int) ≤ y then
      floodLoop cfg grid zone_id fuel stack visited cells
    else if grid y.toNat x.toNat ≠ zone_id then
      floodLoop cfg grid zone_id fuel stack visited cells
    else
      floodLoop cfg grid zone_id fuel
        ((x - 1, y) :: (x + 1, y) :: (x, y - 1) :: (x, y + 1) :: stack)
        ((x, y) :: visited) (cells ++ [(x, y)])

/-- Fuel bound for the flood fill: every loop iteration either consumes a
stack entry or marks a fresh in-bounds cell visited (pushing four), so
`1 + 5 * width * height` iterations always finish the stack. -/
def floodFuel (cfg : CityConfig) : Nat :=
  5 * cfg.width * cfg.height + 5

/-- The row-major search for the first cell bearing `zone_id`
(`_find_connected_cells`, first loop); returns `(x, y)`. -/
def findStartPos (cfg : CityConfig) (grid : ZGrid) (zone_id : Nat) :
    Option (Nat × Nat) :=
  (List.range cfg.height).findSome? fun y =>
    ((List.range cfg.width).find? fun x => grid y x == zone_id).map fun x => (x, y)

/-- `_find_connected_cells`: flood fill from the first cell with the given
id (empty when the id never occurs). -/
def find_connected_cells (cfg : CityConfig) (grid : ZGrid) (zone_id : Nat) :
    List (Int × Int) :=
  match findStartPos cfg grid zone_id with
  | none => []
  | some (x, y) => floodLoop cfg grid zone_id (floodFuel cfg) [((x : Int), (y : Int))] [] []

/-- `_create_zone_objects`: for each seed id (dict iteration = insertion
order; ids are dict keys, hence distinct, so the source's `processed` set
never prunes anything), build the tight bounding box of the first
connected component of that id and emit one `Zone`.  Seeds are given as
`(id, zone_type)` pairs (the seed coordinates play no role here). -/
def create_zone_objects (cfg : CityConfig) (grid : ZGrid)
    (seeds : List (Nat × ZoneType)) : List Zone :=
  seeds.filterMap fun s =>
    match find_connected_cells cfg grid s.1 with
    | [] => none
    | c :: cs =>
      let min_x := cs.foldl (fun a p => min a p.1) c.1
      let max_x := cs.foldl (fun a p => max a p.1) c.1
      let min_y := cs.foldl (fun a p => min a p.2) c.2
      let max_y := cs.foldl (fun a p => max a p.2) c.2
      some (Zone.mk s.2 min_x.toNat min_y.toNat
        (max_x - min_x + 1).toNat (max_y - min_y + 1).toNat
        (cfg.zone_densities s.2))

/-- Half-open bounding rectangles of two zones intersect. -/
def boxesIntersect (z1 z2 : Zone) : Bool :=
  decide (z1.x < z2.x + z2.width) && decide (z2.x < z1.x + z1.width) &&
  decide (z1.y < z2.y + z2.height) && decide (z2.y < z1.y + z1.height)

/-! ### Building placement (`generator.py`, class `CityGenerator`) -/

/-- `class Building` (the derived `building_height` is the def below). -/
structure Building where
  x : Nat
  y : Nat
  width : Nat
  height : Nat
  floors : Nat
  zone_type : ZoneType
deriving DecidableEq

/-- `building_height = floors * 3.5` from `Building.__init__`. -/
def Building.building_height (b : Building) : ℚ :=
  (b.floors : ℚ) * (7/2)

/-- `_get_min_building_size` (every zone type is in the dict, so the
`.get` default `(10, 10)` is dead). -/
def min_building_size : ZoneType → Nat × Nat
  | .RESIDENTIAL => (8, 10)
  | .COMMERCIAL => (12, 15)
  | .BUSINESS => (20, 25)
  | .LEISURE => (10, 12)
  | .INDUSTRIAL => (25, 30)
  | .PARKS => (5, 5)

/-- `_get_max_building_size`. -/
def max_building_size : ZoneType → Nat × Nat
  | .RESIDENTIAL => (15, 20)
  | .COMMERCIAL => (25, 30)
  | .BUSINESS => (40, 50)
  | .LEISURE => (20, 25)
  | .INDUSTRIAL => (50, 60)
  | .PARKS => (8, 8)

/-- `_get_building_spacing`. -/
def building_spacing : ZoneType → Nat
  | .RESIDENTIAL => 5
  | .COMMERCIAL => 3
  | .BUSINESS => 8
  | .LEISURE => 6
  | .INDUSTRIAL => 10
  | .PARKS => 20

/-- Python `range(a, b)` over `Int` (step 1), for the buffer loops of
`_can_place_building`. -/
def intRange (a b : Int) : List Int :=
  (List.range (b - a).toNat).map fun i => a + (i : Int)

/-- `_can_place_building`: reject when any cell under the minimum
footprint is a road, or when a road cell lies strictly inside the 5-unit
buffer band on both axes. -/
def can_place_building (cfg : CityConfig) (grid : Grid) (x y : Nat)
    (size : Nat × Nat) : Bool :=
  ((List.range size.1).all fun dx => (List.range size.2).all fun dy =>
    !(is_road cfg grid ((x : Int) + dx) ((y : Int) + dy)))
  &&
  ((intRange (-5) ((size.1 : Int) + 5)).all fun dx =>
    (intRange (-5) ((size.2 : Int) + 5)).all fun dy =>
      !(is_road cfg grid ((x : Int) + dx) ((y : Int) + dy)
        && decide (dx.natAbs < 5 ∧ dy.natAbs < 5)))

/-- The `randint(lo, hi)` contract shared by `random.randint(lo, hi)` and
`np.random.randint(lo, hi + 1)`: some value of `[lo, hi]` when
`lo ≤ hi` (`seed` selects which, and every value is reached as `seed`
varies), and an exception — modelled as `none` — when `lo > hi`. -/
def pyRandint (lo hi seed : Nat) : Option Nat :=
  if lo ≤ hi then some (lo + seed % (hi + 1 - lo)) else none

/-- `_generate_building_floors`.  `h // 3.5` on a Python int `h` is the
float floor of `h / 3.5`, i.e. `2 * h / 7` in integer arithmetic (`3.5 =
7/2`; `int(...)` of the non-negative result truncates, changing nothing).
`hasNumpy` selects the numpy or fallback branch; `eDraw` is the
non-negative integer part of the exponential draw (over all executions it
ranges over all of `Nat`), `seed` drives `randint`. -/
def generate_building_floors (cfg : CityConfig) (zone_type : ZoneType)
    (hasNumpy : Bool) (eDraw seed : Nat) : Option Nat :=
  let min_floors := max 1 (2 * cfg.min_building_height zone_type / 7)
  let max_floors := max min_floors (2 * cfg.max_building_height zone_type / 7)
  match zone_type with
  | .BUSINESS =>
      if hasNumpy then some (eDraw + min_floors)
      else some (min max_floors (min_floors + eDraw))
  | .RESIDENTIAL => pyRandint min_floors (min max_floors 8) seed
  | _ => pyRandint min_floors max_floors seed

/-- The random draws consumed by `_generate_zone_buildings`, indexed by
the candidate slot `(x, y)` (each slot consumes fresh draws): footprint
width/height seeds, the exponential draw and `randint` seed for the floor
count, and the Bernoulli outcome `random() < zone.density`. -/
structure PlacementRng where
  hasNumpy : Bool
  wSeed : Nat → Nat → Nat
  hSeed : Nat → Nat → Nat
  eDraw : Nat → Nat → Nat
  fSeed : Nat → Nat → Nat
  accept : Nat → Nat → Bool

/-- `_generate_zone_buildings`: scan slots in raster order (`pyRange`
reproduces the `while` loops: start `spacing` inside the corner, step
`maxSize + spacing`, bound `zone far edge - minSize`, where the `Nat`
truncated bound coincides with the Python bound because the scan variable
is non-negative); at each slot run `_can_place_building`, sample the
footprint (`randint` on the size tables always has `lo ≤ hi`), clip it to
the zone, sample the floor count, and keep the building iff the density
draw accepts.  A `none` from the floor sampler aborts the source with an
exception; no building arises there in the embedding either. -/
def generate_zone_buildings (cfg : CityConfig) (grid : Grid)
    (rng : PlacementRng) (zone : Zone) : List Building :=
  if zone.zone_type = ZoneType.PARKS then []
  else
    (pyRange (zone.y + building_spacing zone.zone_type)
        (zone.y + zone.height - (min_building_size zone.zone_type).2)
        ((max_building_size zone.zone_type).2 +
          building_spacing zone.zone_type)).flatMap fun y =>
      (pyRange (zone.x + building_spacing zone.zone_type)
          (zone.x + zone.width - (min_building_size zone.zone_type).1)
          ((max_building_size zone.zone_type).1 +
            building_spacing zone.zone_type)).filterMap fun x =>
        if can_place_building cfg grid x y (min_building_size zone.zone_type) then
          match generate_building_floors cfg zone.zone_type rng.hasNumpy
              (rng.eDraw x y) (rng.fSeed x y) with
          | none => none
          | some floors =>
            if rng.accept x y then
              some (Building.mk x y
                (min ((min_building_size zone.zone_type).1 +
                    rng.wSeed x y % ((max_building_size zone.zone_type).1 + 1 -
                      (min_building_size zone.zone_type).1))
                  (zone.x + zone.width - x))
                (min ((min_building_size zone.zone_type).2 +
                    rng.hSeed x y % ((max_building_size zone.zone_type).2 + 1 -
                      (min_building_size zone.zone_type).2))
                  (zone.y + zone.height - y))
                floors zone.zone_type)
            else none
        else none

/-- `_generate_buildings`: all zones in order. -/
def generate_buildings (cfg : CityConfig) (grid : Grid) (rng : PlacementRng)
    (zones : List Zone) : List Building :=
  zones.flatMap (generate_zone_buildings cfg grid rng)

/-! ### Mesh export (`export_to_obj`) -/

/-- One line of the OBJ file.  `header` is a `#` comment line; `vertB` is
a building vertex `v x elevation y` (all three coordinates exact
rationals); `vertR` is one of the four ribbon corners of a road — its
printed coordinates involve the road's float direction vector, so the
embedding records the determining data (endpoints, width, corner index)
instead of the irrational coordinates, which no claim inspects; `face` is
a quad face line with four 1-based vertex indices. -/
inductive ObjLine where
  | header : ObjLine
  | vertB : ℚ → ℚ → ℚ → ObjLine
  | vertR : Nat × Nat → Nat × Nat → ℚ → Fin 4 → ObjLine
  | face : Nat → Nat → Nat → Nat → ObjLine
deriving DecidableEq

/-- Is this a vertex (`v ...`) line? -/
def ObjLine.isVert : ObjLine → Bool
  | .vertB _ _ _ => true
  | .vertR _ _ _ _ => true
  | _ => false

/-- Is this a face (`f ...`) line? -/
def ObjLine.isFace : ObjLine → Bool
  | .face _ _ _ _ => true
  | _ => false

/-- Number of vertex lines in a chunk of the file. -/
def countVerts (ls : List ObjLine) : Nat :=
  (ls.filter ObjLine.isVert).length

/-- Number of face lines in a chunk of the file. -/
def countFaces (ls : List ObjLine) : Nat :=
  (ls.filter ObjLine.isFace).length

/-- The 8 vertex lines and 6 face lines written for one building, `base`
being the running `vertex_count` at entry. -/
def buildingLines (base : Nat) (b : Building) : List ObjLine :=
  [ObjLine.vertB b.x 0 b.y,
   ObjLine.vertB (b.x + b.width) 0 b.y,
   ObjLine.vertB (b.x + b.width) 0 (b.y + b.height),
   ObjLine.vertB b.x 0 (b.y + b.height),
   ObjLine.vertB b.x b.building_height b.y,
   ObjLine.vertB (b.x + b.width) b.building_height b.y,
   ObjLine.vertB (b.x + b.width) b.building_height (b.y + b.height),
   ObjLine.vertB b.x b.building_height (b.y + b.height),
   ObjLine.face base (base + 1) (base + 2) (base + 3),
   ObjLine.face (base + 4) (base + 7) (base + 6) (base + 5),
   ObjLine.face base (base + 4) (base + 5) (base + 1),
   ObjLine.face (base + 1) (base + 5) (base + 6) (base + 2),
   ObjLine.face (base + 2) (base + 6) (base + 7) (base + 3),
   ObjLine.face (base + 3) (base + 7) (base + 4) base]

/-- The building loop of `export_to_obj`: lines plus the updated
`vertex_count`. -/
def exportBuildings : Nat → List Building → List ObjLine × Nat
  | c, [] => ([], c)
  | c, b :: bs =>
    let rest := exportBuildings (c + 8) bs
    (buildingLines c b ++ rest.1, rest.2)

/-- The 4 ribbon vertex lines and 1 face line written for one road (only
reached under the `length > 0` guard). -/
def roadLines (base : Nat) (r : Road) : List ObjLine :=
  [ObjLine.vertR r.start r.end_ r.width 0,
   ObjLine.vertR r.start r.end_ r.width 1,
   ObjLine.vertR r.start r.end_ r.width 2,
   ObjLine.vertR r.start r.end_ r.width 3,
   ObjLine.face base (base + 1) (base + 2) (base + 3)]

/-- The road loop of `export_to_obj`: the float guard `length > 0` is the
exact integer condition `0 < lengthSq` (the float `sqrt` of a positive
integer is positive, and is exactly `0.0` on the integer `0`), under which
the division by `length` in the source is well-defined. -/
def exportRoads : Nat → List Road → List ObjLine × Nat
  | c, [] => ([], c)
  | c, r :: rs =>
    if 0 < r.lengthSq then
      let rest := exportRoads (c + 4) rs
      (roadLines c r ++ rest.1, rest.2)
    else exportRoads c rs

/-- The full OBJ file as a list of lines: the two comment lines, then all
buildings (vertex counter starting at 1), then all roads (counter carried
over). -/
def export_to_obj_lines (buildings : List Building) (roads : List Road) :
    List ObjLine :=
  let bpart := exportBuildings 1 buildings
  ObjLine.header :: ObjLine.header :: (bpart.1 ++ (exportRoads bpart.2 roads).1)

/-- Face-index validity for a chunk of the file given the number `v` of
vertex lines already emitted before the chunk: every index on every face
line is at least 1 and at most the number of vertex lines emitted strictly
before that face line. -/
def facesOkB : Nat → List ObjLine → Bool
  | v, ObjLine.face a b c d :: rest =>
    (decide (1 ≤ a) && decide (a ≤ v) && decide (1 ≤ b) && decide (b ≤ v) &&
     decide (1 ≤ c) && decide (c ≤ v) && decide (1 ≤ d) && decide (d ≤ v)) &&
    facesOkB v rest
  | v, l :: rest => facesOkB (v + (if l.isVert then 1 else 0)) rest
  | _, [] => true

/-! ### The generator object and its export gate (`generator.py`) -/

/-- The building dict produced by `Building.to_dict`. -/
structure BuildingDict where
  x : Nat
  y : Nat
  width : Nat
  height : Nat
  floors : Nat
  building_height : ℚ
  zone_type : String
deriving DecidableEq

/-- `Building.to_dict`. -/
def Building.to_dict (b : Building) : BuildingDict :=
  ⟨b.x, b.y, b.width, b.height, b.floors, b.building_height,
    zoneTypeValue b.zone_type⟩

/-- The tree returned by `export_to_json` (the `intersections` section,
which serializes a dict in insertion order, carries no claim and is
omitted from the embedding). -/
structure CityData where
  width : Nat
  height : Nat
  main_road_width : ℚ
  secondary_road_width : ℚ
  local_road_width : ℚ
  zones : List (String × Nat × Nat × Nat × Nat × ℚ × (ℚ × ℚ × ℚ))
  roads : List ((Nat × Nat) × (Nat × Nat) × ℚ × String)
  buildings : List BuildingDict

/-- The externally visible state of `CityGenerator` at export time. -/
structure CityGenerator where
  config : CityConfig
  zones : List Zone
  roads : List Road
  buildings : List Building
  generation_complete : Bool

/-- `export_to_json`: raises `ValueError("City generation not complete")`
when the gate is closed, otherwise returns the data tree (and only then
writes anything). -/
def export_to_json (g : CityGenerator) : Except String CityData :=
  if g.generation_complete then
    Except.ok
      { width := g.config.width
        height := g.config.height
        main_road_width := g.config.main_road_width
        secondary_road_width := g.config.secondary_road_width
        local_road_width := g.config.local_road_width
        zones := g.zones.map fun z =>
          (zoneTypeValue z.zone_type, z.x, z.y, z.width, z.height, z.density,
            g.config.get_zone_color z.zone_type)
        roads := g.roads.map fun r => (r.start, r.end_, r.width, r.road_type)
        buildings := g.buildings.map Building.to_dict }
  else Except.error "City generation not complete"

/-- `export_to_obj`: raises `ValueError("City generation not complete")`
when the gate is closed, otherwise produces the OBJ lines (and only then
writes anything). -/
def export_to_obj (g : CityGenerator) : Except String (List ObjLine) :=
  if g.generation_complete then
    Except.ok (export_to_obj_lines g.buildings g.roads)
  else Except.error "City generation not complete"

/-! ### Auxiliary predicates and concrete instances -/

/-- A road with nonzero length (the source's `length > 0` on the float
`sqrt` is exactly `0 < lengthSq`). -/
def hasLength (r : Road) : Bool :=
  decide (0 < r.lengthSq)

/-- Both coordinates of a point lie in the closed box
`[0, width] x [0, height]` (`Nat` coordinates are non-negative). -/
def inClosedBox (cfg : CityConfig) (p : Nat × Nat) : Prop :=
  p.1 ≤ cfg.width ∧ p.2 ≤ cfg.height

/-- The unordered pairs visited by the `_connect_zones` double loop, in
visit order. -/
def zonePairs : List Zone → List (Zone × Zone)
  | [] => []
  | z :: rest => (rest.map fun z2 => (z, z2)) ++ zonePairs rest

/-- A small concrete configuration (150 x 60 plane, default road widths
except a local width of 10, default grid spacings scaled down). -/
def cfgC1 : CityConfig :=
  { width := 150, height := 60, main_road_width := 20, secondary_road_width := 12,
    local_road_width := 10, main_grid_size := 100, secondary_grid_size := 50,
    zone_densities := fun _ => 1, zone_distribution := fun _ => 1,
    max_building_height := fun _ => 25, min_building_height := fun _ => 6,
    noise_scale := 1/10, noise_octaves := 4 }

/-- A parks zone covering the whole `cfgC1` plane.  Reachable: with a
`zone_distribution` giving everything to parks, a 150 x 60 plane yields
`max(1, 9000 // 10000) = 1` seed, and with a single seed
`_find_closest_zone` assigns every cell to it (the minimum over a
singleton ignores noise and preference), so the single zone's bounding
box is the full plane. -/
def zoneC1 : Zone := ⟨ZoneType.PARKS, 0, 0, 150, 60, 1⟩

/-- A 60 x 60 configuration with local road width 8. -/
def cfgC2 : CityConfig :=
  { cfgC1 with width := 60, height := 60, local_road_width := 8 }

/-- A residential zone covering the whole `cfgC2` plane (reachable with a
single residential seed, as for `zoneC1`). -/
def zoneC2 : Zone := ⟨ZoneType.RESIDENTIAL, 0, 0, 60, 60, 1⟩

/-- A 3 x 3 configuration for the zone-extraction counterexample. -/
def cfgC3 : CityConfig := { cfgC1 with width := 3, height := 3 }

/-- The zone-id grid produced on a 3 x 3 plane by two equal-preference
seeds at `(0, 2)` (id 1) and `(2, 0)` (id 2): both preferences are `1.0`
(e.g. a residential and a parks seed) and the per-cell noise factor
multiplies the distance to every seed alike, so `_find_closest_zone`
reduces to nearest-seed with ties to the earlier id.  Row `y = 0` is
`1 2 2`, row `y = 1` is `1 1 2`, row `y = 2` is `1 1 1`. -/
def gridC3 : ZGrid := fun y x =>
  match y, x with
  | 0, 0 => 1
  | 0, _ => 2
  | 1, 0 => 1
  | 1, 1 => 1
  | 1, _ => 2
  | _, _ => 1

/-- The two seeds (id and zone type) for `gridC3`. -/
def seedsC3 : List (Nat × ZoneType) :=
  [(1, ZoneType.RESIDENTIAL), (2, ZoneType.PARKS)]

/-- A 30 x 25 configuration for the building-placement witnesses. -/
def cfgC4 : CityConfig := { cfgC1 with width := 30, height := 25 }

/-- A residential zone covering the whole `cfgC4` plane. -/
def zoneC4 : Zone := ⟨ZoneType.RESIDENTIAL, 0, 0, 30, 25, 1⟩

/-- An occupancy grid with no roads at all. -/
def gridEmpty : Grid := fun _ _ => false

/-- An occupancy grid marking the single cell `(1, 2)` (x = 1, y = 2). -/
def gridOneCell : Grid := fun y x => decide (x = 1 ∧ y = 2)

/-- Deterministic placement draws: every seed 0, every density draw
accepting. -/
def rngZero : PlacementRng :=
  ⟨true, fun _ _ => 0, fun _ _ => 0, fun _ _ => 0, fun _ _ => 0, fun _ _ => true⟩

/-- A generator whose generation never completed. -/
def genIncomplete : CityGenerator :=
  ⟨cfgC1, [], [], [], false⟩

/-- A zero-length road (identical start and end). -/
def roadDegenerate : Road := ⟨(2, 2), (2, 2), 8, "local"⟩

/-- A 1 x 1 zone whose center is `(1, 1)`. -/
def zoneP0 : Zone := ⟨ZoneType.RESIDENTIAL, 1, 1, 1, 1, 1⟩

/-- A zone whose center `(151, 1)` is exactly 150 units from `zoneP0`'s. -/
def zoneP150 : Zone := ⟨ZoneType.PARKS, 151, 1, 1, 1, 1⟩

/-- A zone whose center `(10, 1)` is 9 units from `zoneP0`'s. -/
def zonePnear : Zone := ⟨ZoneType.PARKS, 10, 1, 1, 1, 1⟩

/-! ## Theorems

General lemmas first, then one theorem (with its witness or
counterexample) per specification claim. -/

theorem mem_pyRange {a b s x : Nat} (hx : x ∈ pyRange a b s) :
    a ≤ x ∧ x < b := by
  rcases List.mem_map.1 hx with ⟨i, hi, rfl⟩
  rw [List.mem_range] at hi
  refine ⟨Nat.le_add_right _ _, ?_⟩
  rcases Nat.eq_zero_or_pos s with hs | hs
  · subst hs; simp at hi
  rcases le_or_lt b a with hba | hab
  · have : b - a = 0 := Nat.sub_eq_zero_of_le hba
    rw [this] at hi
    have : (0 + s - 1) / s = 0 := by
      have h1 : s - 1 < s := Nat.sub_lt hs Nat.one_pos
      simpa using Nat.div_eq_of_lt h1
    omega
  · have hd : 0 < b - a := Nat.sub_pos_of_lt hab
    have hcnt : s * ((b - a + s - 1) / s) ≤ b - a + s - 1 :=
      Nat.mul_div_le (b - a + s - 1) s
    have hsi : s * i + s ≤ s * ((b - a + s - 1) / s) := by
      rw [← Nat.mul_succ]
      exact Nat.mul_le_mul_left s hi
    have hkey : s * i + s ≤ b - a + s - 1 := hsi.trans hcnt
    omega

/-- Claim C5: both export operations fail with the "City generation not
complete" error when `generation_complete` is false, returning no partial
or empty data (nothing is written in the error case, since the source
raises before opening the output). -/
theorem c5_export_gate (g : CityGenerator)
    (h : g.generation_complete = false) :
    export_to_json g = Except.error "City generation not complete" ∧
    export_to_obj g = Except.error "City generation not complete" := by
  constructor <;> simp [export_to_json, export_to_obj, h]

/-- Witness for C5 at a concrete incomplete generator. -/
theorem c5_export_gate_witness :
    export_to_json genIncomplete = Except.error "City generation not complete" ∧
    export_to_obj genIncomplete = Except.error "City generation not complete" :=
  c5_export_gate genIncomplete rfl

/-- Claim C7: a road whose start equals its end has squared length 0, so
the `length > 0` guard of the road-export loop skips it entirely: it
contributes no ribbon vertex lines, no face line, and no change to the
vertex counter — and the division by `length` (which only happens inside
the guard) is never reached, so no division error can arise. -/
theorem c7_zero_length_road_skipped (c : Nat) (r : Road) (rs : List Road)
    (h : r.start = r.end_) :
    r.lengthSq = 0 ∧ exportRoads c (r :: rs) = exportRoads c rs := by
  have hz : r.lengthSq = 0 := by
    simp [Road.lengthSq, h]
  exact ⟨hz, by simp [exportRoads, hz]⟩

/-- Witness for C7 at a concrete degenerate road. -/
theorem c7_zero_length_road_skipped_witness :
    roadDegenerate.lengthSq = 0 ∧
    exportRoads 1 [roadDegenerate] = exportRoads 1 [] :=
  c7_zero_length_road_skipped 1 roadDegenerate [] rfl

/-- Claim C8: inside `[0, width) x [0, height)` the query `is_road`
returns the occupancy grid value at `(x, y)`, and at every point strictly
outside those bounds (including negative coordinates) it returns `false`,
with no out-of-range access. -/
theorem c8_is_road_contract (cfg : CityConfig) (grid : Grid) (x y : Int) :
    (0 ≤ x → x < (cfg.width : Int) → 0 ≤ y → y < (cfg.height : Int) →
      is_road cfg grid x y = grid y.toNat x.toNat) ∧
    (¬(0 ≤ x ∧ x < (cfg.width : Int) ∧ 0 ≤ y ∧ y < (cfg.height : Int)) →
      is_road cfg grid x y = false) := by
  constructor
  · intro h1 h2 h3 h4
    simp [is_road, h1, h2, h3, h4]
  · intro h
    simp only [is_road, if_neg h]

/-- Witness for C8 at a concrete grid, one in-bounds point and one
out-of-bounds point. -/
theorem c8_is_road_contract_witness :
    is_road cfgC2 gridOneCell 1 2 = gridOneCell 2 1 ∧
    is_road cfgC2 gridOneCell (-1) 0 = false :=
  ⟨(c8_is_road_contract cfgC2 gridOneCell 1 2).1 (by decide) (by decide)
      (by decide) (by decide),
   (c8_is_road_contract cfgC2 gridOneCell (-1) 0).2 (by decide)⟩

theorem mem_zonePairs {zones : List Zone} {p : Zone × Zone}
    (hp : p ∈ zonePairs zones) : p.1 ∈ zones ∧ p.2 ∈ zones := by
  induction zones with
  | nil => cases hp
  | cons z rest ih =>
    rcases List.mem_append.1 hp with h | h
    · rcases List.mem_map.1 h with ⟨z2, hz2, rfl⟩
      exact ⟨List.mem_cons_self z rest, List.mem_cons_of_mem z hz2⟩
    · exact ⟨List.mem_cons_of_mem z (ih h).1, List.mem_cons_of_mem z (ih h).2⟩

theorem connect_zones_mem_of_pair (cfg : CityConfig) {zones : List Zone}
    {p : Zone × Zone} (hp : p ∈ zonePairs zones)
    (hd : zoneDistSq p.1 p.2 < 22500) :
    zone_connector cfg p.1 p.2 ∈ connect_zones cfg zones := by
  induction zones with
  | nil => cases hp
  | cons z rest ih =>
    rcases List.mem_append.1 hp with h | h
    · rcases List.mem_map.1 h with ⟨z2, hz2, rfl⟩
      refine List.mem_append.2 (Or.inl ?_)
      exact List.mem_filterMap.2 ⟨z2, hz2, by simp [hd]⟩
    · exact List.mem_append.2 (Or.inr (ih h))

theorem mem_connect_zones (cfg : CityConfig) {zones : List Zone} {r : Road}
    (hr : r ∈ connect_zones cfg zones) :
    ∃ p ∈ zonePairs zones,
      r = zone_connector cfg p.1 p.2 ∧ zoneDistSq p.1 p.2 < 22500 := by
  induction zones with
  | nil => cases hr
  | cons z rest ih =>
    rcases List.mem_append.1 hr with h | h
    · rcases List.mem_filterMap.1 h with ⟨z2, hz2, heq⟩
      split at heq
      · rename_i hd
        refine ⟨(z, z2), List.mem_append.2
          (Or.inl (List.mem_map.2 ⟨z2, hz2, rfl⟩)), ?_, hd⟩
        exact (Option.some.inj heq).symm
      · cases heq
    · rcases ih h with ⟨p, hp, heq, hd⟩
      exact ⟨p, List.mem_append.2 (Or.inr hp), heq, hd⟩

/-- Claim C9: `_connect_zones` adds a connector road between the centers
of an (unordered, in visit order) pair of zones exactly when the squared
center distance is strictly below `150^2` — the source's float comparison
`sqrt d2 < 150` is exactly `d2 < 22500` on integers — and in particular
two zones whose centers are exactly 150 apart get no connector. -/
theorem c9_connector_threshold :
    (∀ (cfg : CityConfig) (zones : List Zone) (p : Zone × Zone),
      p ∈ zonePairs zones → zoneDistSq p.1 p.2 < 22500 →
        zone_connector cfg p.1 p.2 ∈ connect_zones cfg zones) ∧
    (∀ (cfg : CityConfig) (zones : List Zone) (r : Road),
      r ∈ connect_zones cfg zones →
        ∃ p ∈ zonePairs zones,
          r = zone_connector cfg p.1 p.2 ∧ zoneDistSq p.1 p.2 < 22500) ∧
    (∀ (cfg : CityConfig) (z1 z2 : Zone), zoneDistSq z1 z2 = 22500 →
      zone_connector cfg z1 z2 ∉ connect_zones cfg [z1, z2]) := by
  refine ⟨fun cfg zones p hp hd => connect_zones_mem_of_pair cfg hp hd,
    fun cfg zones r hr => mem_connect_zones cfg hr, ?_⟩
  intro cfg z1 z2 hd hmem
  rcases mem_connect_zones cfg hmem with ⟨p, hp, _, hlt⟩
  have : p = (z1, z2) := by
    simp [zonePairs] at hp
    rcases p with ⟨a, b⟩
    simp_all
  subst this
  simp only at hlt
  omega

/-- Witness for C9: a pair 9 units apart gets a connector; a pair exactly
150 units apart does not. -/
theorem c9_connector_threshold_witness :
    zone_connector cfgC1 zoneP0 zonePnear ∈ connect_zones cfgC1 [zoneP0, zonePnear] ∧
    zone_connector cfgC1 zoneP0 zoneP150 ∉ connect_zones cfgC1 [zoneP0, zoneP150] :=
  ⟨c9_connector_threshold.1 cfgC1 [zoneP0, zonePnear] (zoneP0, zonePnear)
      (by decide) (by decide),
   c9_connector_threshold.2.2 cfgC1 zoneP0 zoneP150 (by decide)⟩

theorem imapAdd_mono {m : IMap} {q p : Nat × Nat} {r a : Road}
    (h : r ∈ m q) : r ∈ imapAdd m p a q := by
  unfold imapAdd
  split <;> simp [h]

theorem add_intersections_mono {m : IMap} {q : Nat × Nat} {r a : Road}
    (h : r ∈ m q) : r ∈ add_intersections_for_road m a q :=
  imapAdd_mono (imapAdd_mono h)

theorem add_intersections_self_start {m : IMap} {r : Road} :
    r ∈ add_intersections_for_road m r r.start := by
  unfold add_intersections_for_road imapAdd
  split <;> simp

theorem add_intersections_self_end {m : IMap} {r : Road} :
    r ∈ add_intersections_for_road m r r.end_ := by
  unfold add_intersections_for_road imapAdd
  simp

theorem foldl_add_intersections_mono (l : List Road) {m : IMap}
    {q : Nat × Nat} {r : Road} (h : r ∈ m q) :
    r ∈ (l.foldl add_intersections_for_road m) q := by
  induction l generalizing m with
  | nil => exact h
  | cons a tl ih => exact ih (add_intersections_mono h)

theorem mem_foldl_add_intersections (l : List Road) :
    ∀ (m : IMap) {r : Road}, r ∈ l →
      r ∈ (l.foldl add_intersections_for_road m) r.start ∧
      r ∈ (l.foldl add_intersections_for_road m) r.end_ := by
  induction l with
  | nil => intro m r hr; cases hr
  | cons a tl ih =>
    intro m r hr
    rcases List.mem_cons.1 hr with rfl | h
    · exact ⟨foldl_add_intersections_mono tl add_intersections_self_start,
        foldl_add_intersections_mono tl add_intersections_self_end⟩
    · exact ih _ h

/-- Claim C2, counterexample: in the generated 60 x 60 city with one
whole-plane residential zone, the local road from `(0,0)` to `(50,0)` is
in the road list but is not registered in the intersection entry of its
start point — `_generate_residential_roads` (like every local-road
generator and `_add_zone_connector`) appends to `roads` without calling
`_add_intersections_for_road`, so the claim's "every road" fails. -/
theorem c2_counterexample :
    Road.mk (0, 0) (50, 0) 8 "local" ∈
      (generate_road_network cfgC2 [zoneC2]).roads ∧
    Road.mk (0, 0) (50, 0) 8 "local" ∉
      (generate_road_network cfgC2 [zoneC2]).intersections (0, 0) := by
  decide

/-- Claim C2, amended: every **main and secondary** road (the roads whose
generators call `_add_intersections_for_road`) is registered in the
intersection entries of both its endpoints; local roads and zone
connectors are not registered at all. -/
theorem c2_main_secondary_registered (cfg : CityConfig) (zones : List Zone)
    (r : Road)
    (hr : r ∈ generate_main_roads cfg ++ generate_secondary_roads cfg) :
    r ∈ (generate_road_network cfg zones).intersections r.start ∧
    r ∈ (generate_road_network cfg zones).intersections r.end_ := by
  have h := mem_foldl_add_intersections
    (generate_main_roads cfg ++ generate_secondary_roads cfg)
    (fun _ => ([] : List Road)) hr
  exact h

/-- Witness for C2's amended theorem: the vertical main road at `x = 0`
of the C2 city is registered at both endpoints. -/
theorem c2_main_secondary_registered_witness :
    Road.mk (0, 0) (0, 59) 20 "main" ∈
      (generate_road_network cfgC2 [zoneC2]).intersections (0, 0) ∧
    Road.mk (0, 0) (0, 59) 20 "main" ∈
      (generate_road_network cfgC2 [zoneC2]).intersections (0, 59) :=
  c2_main_secondary_registered cfgC2 [zoneC2]
    (Road.mk (0, 0) (0, 59) 20 "main") (by decide)

theorem mem_floodLoop (cfg : CityConfig) (grid : ZGrid) (zone_id : Nat) :
    ∀ (fuel : Nat) (stack visited cells : List (Int × Int)) (p : Int × Int),
      p ∈ floodLoop cfg grid zone_id fuel stack visited cells →
      p ∈ cells ∨
        (0 ≤ p.1 ∧ p.1 < (cfg.width : Int) ∧ 0 ≤ p.2 ∧ p.2 < (cfg.height : Int) ∧
          grid p.2.toNat p.1.toNat = zone_id) := by
  intro fuel
  induction fuel with
  | zero =>
    intro stack visited cells p hp
    exact Or.inl hp
  | succ n ih =>
    intro stack visited cells p hp
    match stack with
    | [] => exact Or.inl hp
    | (x, y) :: rest =>
      rw [floodLoop] at hp
      split at hp
      · exact ih rest visited cells p hp
      · split at hp
        · exact ih rest visited cells p hp
        · split at hp
          · exact ih rest visited cells p hp
          · rename_i hvis hbounds hval
            rcases ih _ _ _ p hp with hc | hprop
            · rcases List.mem_append.1 hc with hc | hc
              · exact Or.inl hc
              · rcases List.mem_singleton.1 hc with rfl
                push_neg at hbounds
                refine Or.inr ⟨by omega, by omega, by omega, by omega, ?_⟩
                simpa using hval
            · exact Or.inr hprop

theorem mem_find_connected_cells {cfg : CityConfig} {grid : ZGrid}
    {zone_id : Nat} {p : Int × Int}
    (hp : p ∈ find_connected_cells cfg grid zone_id) :
    grid p.2.toNat p.1.toNat = zone_id := by
  unfold find_connected_cells at hp
  split at hp
  · cases hp
  · rcases mem_floodLoop cfg grid zone_id _ _ _ _ p hp with hc | hprop
    · cases hc
    · exact hprop.2.2.2.2

/-- Claim C3, counterexample: on the reachable 3 x 3 zone-id grid
`gridC3` (two equal-preference seeds; see its doc comment), the two
emitted zones have bounding boxes `(0,0) 3 x 3` and `(1,0) 2 x 2`, which
intersect — `_create_zone_objects` emits the tight bounding box of each
id's first connected component, and nothing prevents those boxes from
overlapping, so the produced zones are not pairwise non-overlapping. -/
theorem c3_counterexample :
    create_zone_objects cfgC3 gridC3 seedsC3 =
      [⟨ZoneType.RESIDENTIAL, 0, 0, 3, 3, 1⟩, ⟨ZoneType.PARKS, 1, 0, 2, 2, 1⟩] ∧
    boxesIntersect ⟨ZoneType.RESIDENTIAL, 0, 0, 3, 3, 1⟩
      ⟨ZoneType.PARKS, 1, 0, 2, 2, 1⟩ = true := by
  constructor
  · rfl
  · decide

/-- Claim C3, amended: what the partitioner does guarantee is that
distinct seed ids yield pairwise disjoint connected *cell sets* (every
cell collected by `_find_connected_cells` for id `i` carries value `i` in
the zone grid); the zones' bounding rectangles, however, may intersect. -/
theorem c3_components_disjoint (cfg : CityConfig) (grid : ZGrid)
    (id1 id2 : Nat) (h : id1 ≠ id2) (p : Int × Int)
    (h1 : p ∈ find_connected_cells cfg grid id1) :
    p ∉ find_connected_cells cfg grid id2 := by
  intro h2
  exact h ((mem_find_connected_cells h1).symm.trans
    (mem_find_connected_cells h2))

/-- Witness for C3's amended theorem: the cell `(0, 0)` belongs to id 1's
component of `gridC3` and therefore not to id 2's. -/
theorem c3_components_disjoint_witness :
    ((0 : Int), (0 : Int)) ∈ find_connected_cells cfgC3 gridC3 1 ∧
    ((0 : Int), (0 : Int)) ∉ find_connected_cells cfgC3 gridC3 2 :=
  ⟨by decide,
   c3_components_disjoint cfgC3 gridC3 1 2 (by decide) (0, 0) (by decide)⟩

theorem mem_generate_zone_buildings {cfg : CityConfig} {grid : Grid}
    {rng : PlacementRng} {zone : Zone} {b : Building}
    (hb : b ∈ generate_zone_buildings cfg grid rng zone) :
    b.zone_type = zone.zone_type ∧
    can_place_building cfg grid b.x b.y
      (min_building_size zone.zone_type) = true ∧
    generate_building_floors cfg zone.zone_type rng.hasNumpy
      (rng.eDraw b.x b.y) (rng.fSeed b.x b.y) = some b.floors := by
  unfold generate_zone_buildings at hb
  split at hb
  · cases hb
  · simp only [List.mem_flatMap] at hb
    rcases hb with ⟨y, _, hb⟩
    simp only [List.mem_filterMap] at hb
    rcases hb with ⟨x, _, heq⟩
    split at heq
    · split at heq
      · cases heq
      · split at heq
        · rcases Option.some.inj heq with rfl
          exact ⟨rfl, by assumption, by assumption⟩
        · cases heq
    · cases heq

theorem mem_generate_buildings {cfg : CityConfig} {grid : Grid}
    {rng : PlacementRng} {zones : List Zone} {b : Building}
    (hb : b ∈ generate_buildings cfg grid rng zones) :
    ∃ zone ∈ zones, b ∈ generate_zone_buildings cfg grid rng zone := by
  simpa [generate_buildings] using hb

/-- Claim C4: every building accepted by `_generate_zone_buildings`
passed `_can_place_building` at its own origin, whose first loop demands
that no cell under the minimum footprint of the building's zone type is a
road cell; hence no placed building has a road cell under its minimum
footprint at acceptance time. -/
theorem c4_placed_building_avoids_roads (cfg : CityConfig) (grid : Grid)
    (rng : PlacementRng) (zones : List Zone) (b : Building)
    (hb : b ∈ generate_buildings cfg grid rng zones)
    (dx dy : Nat) (hdx : dx < (min_building_size b.zone_type).1)
    (hdy : dy < (min_building_size b.zone_type).2) :
    is_road cfg grid ((b.x : Int) + dx) ((b.y : Int) + dy) = false := by
  rcases mem_generate_buildings hb with ⟨zone, _, hbz⟩
  rcases mem_generate_zone_buildings hbz with ⟨hzt, hcan, _⟩
  rw [can_place_building, Bool.and_eq_true] at hcan
  have h1 := hcan.1
  rw [List.all_eq_true] at h1
  have h2 := h1 dx (List.mem_range.2 (hzt ▸ hdx))
  rw [List.all_eq_true] at h2
  have h3 := h2 dy (List.mem_range.2 (hzt ▸ hdy))
  simpa using h3

/-- Witness for C4: in the 30 x 25 city with an empty occupancy grid, the
building at `(5, 5)` is placed, and the cell at its origin is not a
road. -/
theorem c4_placed_building_avoids_roads_witness :
    Building.mk 5 5 8 10 1 ZoneType.RESIDENTIAL ∈
      generate_buildings cfgC4 gridEmpty rngZero [zoneC4] ∧
    is_road cfgC4 gridEmpty ((5 : Int) + (0 : Nat)) ((5 : Int) + (0 : Nat)) = false :=
  ⟨by decide,
   c4_placed_building_avoids_roads cfgC4 gridEmpty rngZero [zoneC4]
     (Building.mk 5 5 8 10 1 ZoneType.RESIDENTIAL) (by decide) 0 0
     (by decide) (by decide)⟩

/-- Claim C10: the floor sampler clamps `min_floors` to at least 1 and
every distribution branch returns at least `min_floors` (when it returns
at all — `randint` with an empty range raises instead), so every placed
building has at least one floor and hence a derived
`building_height = floors * 3.5` of at least `3.5`. -/
theorem c10_floors_positive :
    (∀ (cfg : CityConfig) (zt : ZoneType) (hn : Bool) (e s f : Nat),
      generate_building_floors cfg zt hn e s = some f → 1 ≤ f) ∧
    (∀ (cfg : CityConfig) (grid : Grid) (rng : PlacementRng)
      (zones : List Zone) (b : Building),
      b ∈ generate_buildings cfg grid rng zones →
      1 ≤ b.floors ∧ (7/2 : ℚ) ≤ b.building_height) := by
  have hfl : ∀ (cfg : CityConfig) (zt : ZoneType) (hn : Bool) (e s f : Nat),
      generate_building_floors cfg zt hn e s = some f → 1 ≤ f := by
    intro cfg zt hn e s f hf
    unfold generate_building_floors at hf
    rcases zt <;> simp only [pyRandint] at hf <;>
      [skip; skip; rcases hn with _ | _; skip; skip; skip] <;>
      first
        | (split at hf
           · rcases Option.some.inj hf with rfl; omega
           · cases hf)
        | (rcases Option.some.inj hf with rfl; omega)
  refine ⟨hfl, ?_⟩
  intro cfg grid rng zones b hb
  rcases mem_generate_buildings hb with ⟨zone, _, hbz⟩
  rcases mem_generate_zone_buildings hbz with ⟨_, _, hsome⟩
  have h1 : 1 ≤ b.floors := hfl cfg zone.zone_type rng.hasNumpy _ _ _ hsome
  refine ⟨h1, ?_⟩
  have h1q : (1 : ℚ) ≤ (b.floors : ℚ) := by exact_mod_cast h1
  calc (7/2 : ℚ) = 1 * (7/2) := by ring
  _ ≤ (b.floors : ℚ) * (7/2) := by nlinarith
  _ = b.building_height := rfl

/-- Witness for C10: the building placed at `(5, 5)` in the witness city
has one floor and height `3.5`. -/
theorem c10_floors_positive_witness :
    Building.mk 5 5 8 10 1 ZoneType.RESIDENTIAL ∈
      generate_buildings cfgC4 gridEmpty rngZero [zoneC4] ∧
    (1 ≤ (Building.mk 5 5 8 10 1 ZoneType.RESIDENTIAL).floors ∧
      (7/2 : ℚ) ≤ (Building.mk 5 5 8 10 1 ZoneType.RESIDENTIAL).building_height) :=
  ⟨by decide,
   c10_floors_positive.2 cfgC4 gridEmpty rngZero [zoneC4]
     (Building.mk 5 5 8 10 1 ZoneType.RESIDENTIAL) (by decide)⟩

theorem generate_main_roads_box {cfg : CityConfig} {r : Road}
    (hr : r ∈ generate_main_roads cfg) :
    inClosedBox cfg r.start ∧ inClosedBox cfg r.end_ := by
  unfold generate_main_roads at hr
  rcases List.mem_append.1 hr with h | h
  · rcases List.mem_filterMap.1 h with ⟨v, _, heq⟩
    split at heq
    · rcases Option.some.inj heq with rfl
      rename_i hlt
      simp only [inClosedBox, Prod.fst, Prod.snd]
      omega
    · cases heq
  · rcases List.mem_filterMap.1 h with ⟨v, _, heq⟩
    split at heq
    · rcases Option.some.inj heq with rfl
      rename_i hlt
      simp only [inClosedBox, Prod.fst, Prod.snd]
      omega
    · cases heq

theorem generate_secondary_roads_box {cfg : CityConfig} {r : Road}
    (hr : r ∈ generate_secondary_roads cfg) :
    inClosedBox cfg r.start ∧ inClosedBox cfg r.end_ := by
  unfold generate_secondary_roads at hr
  rcases List.mem_append.1 hr with h | h
  · rcases List.mem_filterMap.1 h with ⟨v, hv, heq⟩
    have hb := mem_pyRange hv
    split at heq
    · rcases Option.some.inj heq with rfl
      simp only [inClosedBox, Prod.fst, Prod.snd]
      omega
    · cases heq
  · rcases List.mem_filterMap.1 h with ⟨v, hv, heq⟩
    have hb := mem_pyRange hv
    split at heq
    · rcases Option.some.inj heq with rfl
      simp only [inClosedBox, Prod.fst, Prod.snd]
      omega
    · cases heq

theorem generate_residential_roads_box {cfg : CityConfig} {z : Zone}
    (hzx : z.x + z.width ≤ cfg.width) (hzy : z.y + z.height ≤ cfg.height)
    {r : Road} (hr : r ∈ generate_residential_roads cfg z) :
    inClosedBox cfg r.start ∧ inClosedBox cfg r.end_ := by
  unfold generate_residential_roads at hr
  simp only [List.mem_flatMap] at hr
  rcases hr with ⟨x, hx, y, hy, hr⟩
  have hbx := mem_pyRange hx
  have hby := mem_pyRange hy
  rcases List.mem_append.1 hr with h | h <;> split at h
  · rcases List.mem_singleton.1 h with rfl
    rename_i hg
    simp only [inClosedBox, Prod.fst, Prod.snd]
    omega
  · cases h
  · rcases List.mem_singleton.1 h with rfl
    rename_i hg
    simp only [inClosedBox, Prod.fst, Prod.snd]
    omega
  · cases h

theorem generate_commercial_roads_box {cfg : CityConfig} {z : Zone}
    (hzx : z.x + z.width ≤ cfg.width) (hzy : z.y + z.height ≤ cfg.height)
    {r : Road} (hr : r ∈ generate_commercial_roads cfg z) :
    inClosedBox cfg r.start ∧ inClosedBox cfg r.end_ := by
  unfold generate_commercial_roads at hr
  simp only [List.mem_flatMap] at hr
  rcases hr with ⟨x, hx, hr⟩
  have hbx := mem_pyRange hx
  split at hr
  · rcases List.mem_filterMap.1 hr with ⟨y, hy, heq⟩
    have hby := mem_pyRange hy
    split at heq
    · rcases Option.some.inj heq with rfl
      rename_i hgx hgy
      simp only [inClosedBox, Prod.fst, Prod.snd]
      omega
    · cases heq
  · cases hr

theorem generate_business_roads_box {cfg : CityConfig} {z : Zone}
    (hzx : z.x + z.width ≤ cfg.width) (hzy : z.y + z.height ≤ cfg.height)
    {r : Road} (hr : r ∈ generate_business_roads cfg z) :
    inClosedBox cfg r.start ∧ inClosedBox cfg r.end_ := by
  unfold generate_business_roads at hr
  rcases List.mem_append.1 hr with h | h
  · rcases List.mem_filterMap.1 h with ⟨v, hv, heq⟩
    have hb := mem_pyRange hv
    split at heq
    · rcases Option.some.inj heq with rfl
      simp only [inClosedBox, Prod.fst, Prod.snd]
      omega
    · cases heq
  · rcases List.mem_filterMap.1 h with ⟨v, hv, heq⟩
    have hb := mem_pyRange hv
    split at heq
    · rcases Option.some.inj heq with rfl
      simp only [inClosedBox, Prod.fst, Prod.snd]
      omega
    · cases heq

theorem generate_industrial_roads_box {cfg : CityConfig} {z : Zone}
    (hzx : z.x + z.width ≤ cfg.width) (hzy : z.y + z.height ≤ cfg.height)
    {r : Road} (hr : r ∈ generate_industrial_roads cfg z) :
    inClosedBox cfg r.start ∧ inClosedBox cfg r.end_ := by
  unfold generate_industrial_roads at hr
  rcases List.mem_filterMap.1 hr with ⟨v, hv, heq⟩
  have hb := mem_pyRange hv
  split at heq
  · rcases Option.some.inj heq with rfl
    simp only [inClosedBox, Prod.fst, Prod.snd]
    omega
  · cases heq

theorem generate_park_roads_box {cfg : CityConfig} {z : Zone}
    (hzx : z.x + z.width ≤ cfg.width) (hzy : z.y + z.height ≤ cfg.height)
    {r : Road} (hr : r ∈ generate_park_roads cfg z) :
    inClosedBox cfg r.start ∧ inClosedBox cfg r.end_ := by
  unfold generate_park_roads at hr
  split at hr
  · simp only [List.mem_cons, List.not_mem_nil, or_false] at hr
    rcases hr with rfl | rfl | rfl | rfl <;>
      (simp only [inClosedBox, Prod.fst, Prod.snd]; omega)
  · cases hr

theorem generate_leisure_roads_box {cfg : CityConfig} {z : Zone}
    (hzx : z.x + z.width ≤ cfg.width) (hzy : z.y + z.height ≤ cfg.height)
    {r : Road} (hr : r ∈ generate_leisure_roads cfg z) :
    inClosedBox cfg r.start ∧ inClosedBox cfg r.end_ := by
  unfold generate_leisure_roads at hr
  simp only [List.mem_flatMap] at hr
  rcases hr with ⟨x, hx, hr⟩
  have hbx := mem_pyRange hx
  rcases List.mem_filterMap.1 hr with ⟨y, hy, heq⟩
  have hby := mem_pyRange hy
  split at heq
  · rcases Option.some.inj heq with rfl
    rename_i hg
    simp only [inClosedBox, Prod.fst, Prod.snd]
    omega
  · cases heq

theorem generate_zone_roads_box {cfg : CityConfig} {z : Zone}
    (hzx : z.x + z.width ≤ cfg.width) (hzy : z.y + z.height ≤ cfg.height)
    {r : Road} (hr : r ∈ generate_zone_roads cfg z) :
    inClosedBox cfg r.start ∧ inClosedBox cfg r.end_ := by
  unfold generate_zone_roads at hr
  split at hr
  · exact generate_residential_roads_box hzx hzy hr
  · exact generate_commercial_roads_box hzx hzy hr
  · exact generate_business_roads_box hzx hzy hr
  · exact generate_industrial_roads_box hzx hzy hr
  · exact generate_park_roads_box hzx hzy hr
  · exact generate_leisure_roads_box hzx hzy hr

/-- Claim C1, counterexample: in the generated 150 x 60 city with one
whole-plane parks zone (see `zoneC1` for reachability), the park
perimeter road from `(0, 0)` to `(150, 0)` is in the road list, and its
end x-coordinate equals `width = 150`, outside `[0, width)` — no clipping
at creation exists anywhere in the road generators. -/
theorem c1_counterexample :
    (generate_road_network cfgC1 [zoneC1]).roads.get? 5 =
      some (Road.mk (0, 0) (150, 0) (cfgC1.local_road_width * (4/5)) "local") ∧
    ¬((Road.mk (0, 0) (150, 0) (cfgC1.local_road_width * (4/5))
        "local").end_.1 < cfgC1.width) :=
  ⟨rfl, by decide⟩

/-- Claim C1, amended: provided every zone's bounding box lies within the
plane (which the partitioner guarantees, its cells being grid cells),
every generated road's start and end coordinates lie within the **closed**
box `[0, width] x [0, height]`; the right/bottom edges `x = width` and
`y = height` are attained (e.g. by park perimeter and business/industrial
avenue endpoints), so the half-open bound of the claim is the exact
off-by-one that fails. -/
theorem c1_roads_in_closed_plane (cfg : CityConfig) (zones : List Zone)
    (hz : ∀ z ∈ zones, z.x + z.width ≤ cfg.width ∧ z.y + z.height ≤ cfg.height)
    (r : Road) (hr : r ∈ (generate_road_network cfg zones).roads) :
    inClosedBox cfg r.start ∧ inClosedBox cfg r.end_ := by
  have hroads : (generate_road_network cfg zones).roads =
      (generate_main_roads cfg ++ generate_secondary_roads cfg) ++
        zones.flatMap (generate_zone_roads cfg) ++ connect_zones cfg zones := rfl
  rw [hroads] at hr
  rcases List.mem_append.1 hr with h | h
  · rcases List.mem_append.1 h with h | h
    · rcases List.mem_append.1 h with h | h
      · exact generate_main_roads_box h
      · exact generate_secondary_roads_box h
    · simp only [List.mem_flatMap] at h
      rcases h with ⟨z, hzmem, h⟩
      exact generate_zone_roads_box (hz z hzmem).1 (hz z hzmem).2 h
  · rcases mem_connect_zones cfg h with ⟨p, hp, rfl, _⟩
    have h1 := hz p.1 (mem_zonePairs hp).1
    have h2 := hz p.2 (mem_zonePairs hp).2
    simp only [zone_connector, zoneCenter, inClosedBox, Prod.fst, Prod.snd]
    omega

/-- Witness for C1's amended theorem: the vertical main road at `x = 0`
of the C1 city lies inside the closed box. -/
theorem c1_roads_in_closed_plane_witness :
    zoneC1.x + zoneC1.width ≤ cfgC1.width ∧
    zoneC1.y + zoneC1.height ≤ cfgC1.height ∧
    inClosedBox cfgC1 (Road.mk (0, 0) (0, 59) 20 "main").start ∧
    inClosedBox cfgC1 (Road.mk (0, 0) (0, 59) 20 "main").end_ :=
  ⟨by decide, by decide,
   (c1_roads_in_closed_plane cfgC1 [zoneC1]
     (by intro z hz; rcases List.mem_singleton.1 hz with rfl
         exact ⟨by decide, by decide⟩)
     (Road.mk (0, 0) (0, 59) 20 "main") (by decide)).1,
   (c1_roads_in_closed_plane cfgC1 [zoneC1]
     (by intro z hz; rcases List.mem_singleton.1 hz with rfl
         exact ⟨by decide, by decide⟩)
     (Road.mk (0, 0) (0, 59) 20 "main") (by decide)).2⟩

theorem countVerts_append (l1 l2 : List ObjLine) :
    countVerts (l1 ++ l2) = countVerts l1 + countVerts l2 := by
  simp [countVerts, List.filter_append]

theorem countFaces_append (l1 l2 : List ObjLine) :
    countFaces (l1 ++ l2) = countFaces l1 + countFaces l2 := by
  simp [countFaces, List.filter_append]

theorem facesOkB_append (l1 l2 : List ObjLine) :
    ∀ v, facesOkB v (l1 ++ l2) =
      (facesOkB v l1 && facesOkB (v + countVerts l1) l2) := by
  induction l1 with
  | nil => intro v; simp [facesOkB, countVerts]
  | cons l t ih =>
    intro v
    cases l with
    | header =>
      simp [facesOkB, countVerts, List.filter_cons, ObjLine.isVert,
        List.append_eq, ih]
    | vertB a b c =>
      simp [facesOkB, countVerts, List.filter_cons, ObjLine.isVert,
        List.append_eq, ih]
      have h : v + 1 + (List.filter ObjLine.isVert t).length =
          v + ((List.filter ObjLine.isVert t).length + 1) := by omega
      rw [h]
    | vertR a b c d =>
      simp [facesOkB, countVerts, List.filter_cons, ObjLine.isVert,
        List.append_eq, ih]
      have h : v + 1 + (List.filter ObjLine.isVert t).length =
          v + ((List.filter ObjLine.isVert t).length + 1) := by omega
      rw [h]
    | face a b c d =>
      simp [facesOkB, countVerts, List.filter_cons, ObjLine.isVert,
        List.append_eq, ih, Bool.and_assoc]

theorem countVerts_buildingLines (base : Nat) (b : Building) :
    countVerts (buildingLines base b) = 8 := rfl

theorem countFaces_buildingLines (base : Nat) (b : Building) :
    countFaces (buildingLines base b) = 6 := rfl

theorem countVerts_roadLines (base : Nat) (r : Road) :
    countVerts (roadLines base r) = 4 := rfl

theorem countFaces_roadLines (base : Nat) (r : Road) :
    countFaces (roadLines base r) = 1 := rfl

theorem exportBuildings_snd :
    ∀ (bs : List Building) (c : Nat),
      (exportBuildings c bs).2 = c + 8 * bs.length := by
  intro bs
  induction bs with
  | nil => intro c; simp [exportBuildings]
  | cons b t ih =>
    intro c
    simp only [exportBuildings, List.length_cons, ih]
    omega

theorem countVerts_exportBuildings :
    ∀ (bs : List Building) (c : Nat),
      countVerts (exportBuildings c bs).1 = 8 * bs.length := by
  intro bs
  induction bs with
  | nil => intro c; simp [exportBuildings, countVerts]
  | cons b t ih =>
    intro c
    simp only [exportBuildings, countVerts_append, countVerts_buildingLines,
      List.length_cons, ih]
    omega

theorem countFaces_exportBuildings :
    ∀ (bs : List Building) (c : Nat),
      countFaces (exportBuildings c bs).1 = 6 * bs.length := by
  intro bs
  induction bs with
  | nil => intro c; simp [exportBuildings, countFaces]
  | cons b t ih =>
    intro c
    simp only [exportBuildings, countFaces_append, countFaces_buildingLines,
      List.length_cons, ih]
    omega

theorem facesOkB_buildingLines (v : Nat) (b : Building) :
    facesOkB v (buildingLines (v + 1) b) = true := by
  simp [buildingLines, facesOkB, ObjLine.isVert]

theorem facesOkB_exportBuildings :
    ∀ (bs : List Building) (v : Nat),
      facesOkB v (exportBuildings (v + 1) bs).1 = true := by
  intro bs
  induction bs with
  | nil => intro v; simp [exportBuildings, facesOkB]
  | cons b t ih =>
    intro v
    simp only [exportBuildings, facesOkB_append, countVerts_buildingLines,
      facesOkB_buildingLines, Bool.true_and]
    have h : v + 1 + 8 = (v + 8) + 1 := by omega
    rw [h]
    exact ih (v + 8)

theorem exportRoads_snd :
    ∀ (rs : List Road) (c : Nat),
      (exportRoads c rs).2 = c + 4 * (rs.filter hasLength).length := by
  intro rs
  induction rs with
  | nil => intro c; simp [exportRoads]
  | cons r t ih =>
    intro c
    by_cases hr : 0 < r.lengthSq
    · simp only [exportRoads, if_pos hr, List.filter_cons, hasLength,
        decide_eq_true_eq, hr, ite_true, List.length_cons, ih]
      omega
    · simp only [exportRoads, if_neg hr, List.filter_cons, hasLength,
        decide_eq_true_eq, hr, ite_false, ih]

theorem countVerts_exportRoads :
    ∀ (rs : List Road) (c : Nat),
      countVerts (exportRoads c rs).1 = 4 * (rs.filter hasLength).length := by
  intro rs
  induction rs with
  | nil => intro c; simp [exportRoads, countVerts]
  | cons r t ih =>
    intro c
    by_cases hr : 0 < r.lengthSq
    · simp only [exportRoads, if_pos hr, countVerts_append,
        countVerts_roadLines, List.filter_cons, hasLength,
        decide_eq_true_eq, hr, ite_true, List.length_cons, ih]
      omega
    · simp only [exportRoads, if_neg hr, List.filter_cons, hasLength,
        decide_eq_true_eq, hr, ite_false, ih]

theorem countFaces_exportRoads :
    ∀ (rs : List Road) (c : Nat),
      countFaces (exportRoads c rs).1 = (rs.filter hasLength).length := by
  intro rs
  induction rs with
  | nil => intro c; simp [exportRoads, countFaces]
  | cons r t ih =>
    intro c
    by_cases hr : 0 < r.lengthSq
    · simp only [exportRoads, if_pos hr, countFaces_append,
        countFaces_roadLines, List.filter_cons, hasLength,
        decide_eq_true_eq, hr, ite_true, List.length_cons, ih]
      omega
    · simp only [exportRoads, if_neg hr, List.filter_cons, hasLength,
        decide_eq_true_eq, hr, ite_false, ih]

theorem facesOkB_roadLines (v : Nat) (r : Road) :
    facesOkB v (roadLines (v + 1) r) = true := by
  simp [roadLines, facesOkB, ObjLine.isVert]

theorem facesOkB_exportRoads :
    ∀ (rs : List Road) (v : Nat),
      facesOkB v (exportRoads (v + 1) rs).1 = true := by
  intro rs
  induction rs with
  | nil => intro v; simp [exportRoads, facesOkB]
  | cons r t ih =>
    intro v
    by_cases hr : 0 < r.lengthSq
    · simp only [exportRoads, if_pos hr, facesOkB_append,
        countVerts_roadLines, facesOkB_roadLines, Bool.true_and]
      have h : v + 1 + 4 = (v + 4) + 1 := by omega
      rw [h]
      exact ih (v + 4)
    · simp only [exportRoads, if_neg hr]
      exact ih v

/-- Claim C6: the mesh export emits exactly `8 * buildingCount + 4 *
nonzeroRoadCount` vertex lines and `6 * buildingCount + nonzeroRoadCount`
face lines, buildings strictly before roads with the running vertex
counter carried across (last conjunct), and on every face line every
index is at least 1 and at most the number of vertex lines emitted before
that face line (third conjunct, with 0 vertices before the file). -/
theorem c6_obj_export_shape (bs : List Building) (rs : List Road) :
    countVerts (export_to_obj_lines bs rs) =
      8 * bs.length + 4 * (rs.filter hasLength).length ∧
    countFaces (export_to_obj_lines bs rs) =
      6 * bs.length + (rs.filter hasLength).length ∧
    facesOkB 0 (export_to_obj_lines bs rs) = true ∧
    export_to_obj_lines bs rs =
      ObjLine.header :: ObjLine.header ::
        ((exportBuildings 1 bs).1 ++
          (exportRoads (1 + 8 * bs.length) rs).1) := by
  have hshape : export_to_obj_lines bs rs =
      ObjLine.header :: ObjLine.header ::
        ((exportBuildings 1 bs).1 ++
          (exportRoads (1 + 8 * bs.length) rs).1) := by
    simp only [export_to_obj_lines]
    rw [exportBuildings_snd bs 1]
  refine ⟨?_, ?_, ?_, hshape⟩
  · rw [hshape]
    simp only [countVerts, List.filter_cons, ObjLine.isVert, Bool.false_eq_true,
      ite_false]
    rw [show (List.filter ObjLine.isVert
        ((exportBuildings 1 bs).1 ++ (exportRoads (1 + 8 * bs.length) rs).1)).length
      = countVerts ((exportBuildings 1 bs).1 ++ (exportRoads (1 + 8 * bs.length) rs).1)
      from rfl]
    rw [countVerts_append, countVerts_exportBuildings,
      countVerts_exportRoads]
  · rw [hshape]
    simp only [countFaces, List.filter_cons, ObjLine.isFace, Bool.false_eq_true,
      ite_false]
    rw [show (List.filter ObjLine.isFace
        ((exportBuildings 1 bs).1 ++ (exportRoads (1 + 8 * bs.length) rs).1)).length
      = countFaces ((exportBuildings 1 bs).1 ++ (exportRoads (1 + 8 * bs.length) rs).1)
      from rfl]
    rw [countFaces_append, countFaces_exportBuildings,
      countFaces_exportRoads]
  · rw [hshape]
    simp only [facesOkB, ObjLine.isVert, Bool.false_eq_true, ite_false,
      Nat.add_zero]
    rw [facesOkB_append, countVerts_exportBuildings]
    have h1 : (1 : Nat) = 0 + 1 := rfl
    rw [h1, facesOkB_exportBuildings bs 0, Bool.true_and]
    have h2 : 0 + 1 + 8 * bs.length = 8 * bs.length + 1 := by omega
    rw [h2]
    have h3 : (0 : Nat) + 8 * bs.length = 8 * bs.length := by omega
    rw [h3]
    exact facesOkB_exportRoads rs (8 * bs.length)

end CityGen
